import Mathlib

/-!
Verification development for the sprockets CLI (`sprockets/cli.py`).

The module discovers controller plugins via entry points, resolves an
application alias to a module name, configures logging from a base template
`LOGGING`, and dispatches to the selected controller's `main`.  The
definitions below are a shallow embedding of that module: Python dicts
become association lists, the mutable logging template becomes explicit
state passing, exceptions become `Option`/`Except` or explicit outcome
constructors.
-/

namespace Sprockets

/-- Python logging severity `logging.DEBUG`. -/
def DEBUG : Nat := 10

/-- Python logging severity `logging.INFO`. -/
def INFO : Nat := 20

/-- Python logging severity `logging.WARNING`. -/
def WARNING : Nat := 30

/-- Python logging severity `logging.CRITICAL`. -/
def CRITICAL : Nat := 50

/-- `SYSLOG_FORMAT` from `cli.py` (lines 40-41). -/
def SYSLOG_FORMAT : String :=
  "%(levelname)s <PID %(process)d:%(processName)s> %(name)s.%(funcName)s(): %(message)s"

/-- `VERBOSE_FORMAT` from `cli.py` (lines 43-45). -/
def VERBOSE_FORMAT : String :=
  "%(levelname) -10s %(asctime)s %(process)-6d %(processName) -20s %(name) -20s %(funcName) -20s L%(lineno)-6d: %(message)s"

/-- One formatter entry of the logging configuration. -/
structure FormatterConfig where
  format : String
  datefmt : Option String
deriving Repr, DecidableEq

/-- One handler entry of the logging configuration (`class` rendered as
`className`, since `class` is reserved). -/
structure HandlerConfig where
  className : String
  formatter : String
deriving Repr, DecidableEq

/-- One logger entry: handler-name list, severity, propagation flag. -/
structure LoggerConfig where
  handlers : List String
  level : Nat
  propagate : Bool
deriving Repr, DecidableEq

/-- Lookup in an association list with string keys, mirroring Python dict
subscripting; `none` models a `KeyError`. -/
def dictGet? {α : Type} : List (String × α) → String → Option α
  | [], _ => none
  | p :: rest, k => if p.1 = k then some p.2 else dictGet? rest k

/-- Key assignment `d[k] = v` on an association list: replaces the value at
an existing key in place, otherwise appends a new pair (insertion order,
as for a Python dict). -/
def dictSet {α : Type} : List (String × α) → String → α → List (String × α)
  | [], k, v => [(k, v)]
  | p :: rest, k, v => if p.1 = k then (k, v) :: rest else p :: dictSet rest k v

/-- The whole dict-config value: top-level keys of `LOGGING` in `cli.py`
lines 48-64. -/
structure LoggingConfig where
  disable_existing_loggers : Bool
  filters : List (String × String)
  formatters : List (String × FormatterConfig)
  handlers : List (String × HandlerConfig)
  incremental : Bool
  loggers : List (String × LoggerConfig)
  root : LoggerConfig
  version : Nat
deriving Repr, DecidableEq

/-- The base logging template `LOGGING` (`cli.py` lines 48-64). -/
def LOGGING : LoggingConfig :=
  { disable_existing_loggers := true
    filters := []
    formatters := [("syslog", { format := SYSLOG_FORMAT, datefmt := none }),
                   ("verbose", { format := VERBOSE_FORMAT,
                                 datefmt := some "%Y-%m-%d %H:%M:%S" })]
    handlers := [("console", { className := "logging.StreamHandler",
                               formatter := "verbose" }),
                 ("syslog", { className := "logging.handlers.SysLogHandler",
                              formatter := "syslog" })]
    incremental := false
    loggers := [("sprockets", { handlers := ["console"], level := WARNING,
                                propagate := true })]
    root := { handlers := [], level := CRITICAL, propagate := true }
    version := 1 }

/-- Result of one `CLI._configure_logging` call: the configuration handed to
`dictConfig` and the state of the module-level template afterwards.  The
source takes `config = dict(LOGGING)` — a SHALLOW copy, so `config` and the
template share the `loggers` dict and every nested logger dict; all three
mutations of the function land in those shared objects.  The embedding makes
this explicit by returning the post-call template alongside the installed
configuration. -/
structure ConfigureResult where
  installed : LoggingConfig
  template : LoggingConfig
deriving Repr, DecidableEq

/-- `CLI._configure_logging` (`cli.py` lines 160-187), as a state transformer
on the template.  `none` models a `KeyError` (impossible on templates that
contain the `"sprockets"` key).  Steps, in source order: shallow-copy the
template; on verbosity 1 set the base logger level to `INFO`, on 2 to
`DEBUG`; when `syslog` is set append `"syslog"` to the base logger's handler
list; copy the (possibly modified) base logger entry to the key
`application`; install the result.  Because the copy in the source is
shallow, every one of those updates is also visible in the template. -/
def configureLogging (template : LoggingConfig) (application : String)
    (verbosity : Nat) (syslog : Bool) : Option ConfigureResult :=
  let loggers0 := template.loggers
  match (if verbosity = 1 then
           match dictGet? loggers0 "sprockets" with
           | some L => some (dictSet loggers0 "sprockets" { L with level := INFO })
           | none => none
         else if verbosity = 2 then
           match dictGet? loggers0 "sprockets" with
           | some L => some (dictSet loggers0 "sprockets" { L with level := DEBUG })
           | none => none
         else some loggers0) with
  | none => none
  | some loggers1 =>
    match (if syslog then
             match dictGet? loggers1 "sprockets" with
             | some L => some (dictSet loggers1 "sprockets"
                 { L with handlers := L.handlers ++ ["syslog"] })
             | none => none
           else some loggers1) with
    | none => none
    | some loggers2 =>
      match dictGet? loggers2 "sprockets" with
      | none => none
      | some base =>
        let loggers3 := dictSet loggers2 application base
        some { installed := { template with loggers := loggers3 }
               template := { template with loggers := loggers3 } }

/-- Value of the base `"sprockets"` logger entry of `LOGGING` after the
verbosity and syslog modifications of `CLI._configure_logging` (lines
173-181) have been applied to it. -/
def sprocketsAfterMods (v : Nat) (s : Bool) : LoggerConfig :=
  { handlers := if s then ["console", "syslog"] else ["console"]
    level := if v = 1 then INFO else if v = 2 then DEBUG else WARNING
    propagate := true }

theorem dictGet_dictSet_self {α : Type} (d : List (String × α)) (k : String)
    (v : α) : dictGet? (dictSet d k v) k = some v := by
  induction d with
  | nil => simp [dictSet, dictGet?]
  | cons p rest ih =>
    by_cases h : p.1 = k
    · simp [dictSet, dictGet?, h]
    · simp [dictSet, dictGet?, h, ih]

theorem dictGet_dictSet_ne {α : Type} (d : List (String × α)) (j k : String)
    (v : α) (h : j ≠ k) : dictGet? (dictSet d k v) j = dictGet? d j := by
  have hk : k ≠ j := Ne.symm h
  induction d with
  | nil => simp [dictSet, dictGet?, hk]
  | cons p rest ih =>
    by_cases hp : p.1 = k
    · simp [dictSet, dictGet?, hp, hk]
    · by_cases hj : p.1 = j <;> simp [dictSet, dictGet?, hp, hj, hk, h, ih]

/-- Closed-form evaluation of `configureLogging` on the pristine template:
the call succeeds, and both the installed configuration and the post-call
template carry the modified base logger plus its copy under `a`. -/
theorem configureLogging_LOGGING (a : String) (v : Nat) (s : Bool) :
    configureLogging LOGGING a v s =
      some { installed := { LOGGING with
               loggers := dictSet [("sprockets", sprocketsAfterMods v s)] a
                 (sprocketsAfterMods v s) }
             template := { LOGGING with
               loggers := dictSet [("sprockets", sprocketsAfterMods v s)] a
                 (sprocketsAfterMods v s) } } := by
  by_cases h1 : v = 1
  · subst h1; cases s <;> rfl
  · by_cases h2 : v = 2
    · subst h2; cases s <;> simp_all <;> rfl
    · cases s <;>
        simp [configureLogging, sprocketsAfterMods, LOGGING, dictGet?, dictSet,
          h1, h2]

/-- A setuptools entry point as `pkg_resources` yields it: a registered name
and the module it points at. -/
structure EntryPoint where
  name : String
  module_name : String
deriving Repr, DecidableEq

/-- `CLI._get_application_module` (`cli.py` lines 189-202): walk the entry
points of the controller's application group; the first one whose `name`
equals `application` wins and its `module_name` is returned; otherwise the
input string is returned unchanged. -/
def getApplicationModule : List EntryPoint → String → String
  | [], application => application
  | pkg :: rest, application =>
    if pkg.name = application then pkg.module_name
    else getApplicationModule rest application

/-- Loop body of `CLI._get_controllers` (`cli.py` lines 225-236) with the
`controllers` dict as accumulator: each entry point's module is imported and
assigned under the entry's name.  `importModule` models
`importlib.import_module`; an `Except.error` models an uncaught import
exception, which — there being no `try` around the loop — aborts the whole
enumeration. -/
def getControllersAux {M : Type} (importModule : String → Except String M) :
    List (String × M) → List EntryPoint → Except String (List (String × M))
  | controllers, [] => Except.ok controllers
  | controllers, pkg :: rest =>
    match importModule pkg.module_name with
    | Except.error e => Except.error e
    | Except.ok m => getControllersAux importModule
        (dictSet controllers pkg.name m) rest

/-- `CLI._get_controllers`: fold the loop body over the entry points of the
`sprockets.controller` group, starting from an empty dict. -/
def getControllers {M : Type} (entries : List EntryPoint)
    (importModule : String → Except String M) :
    Except String (List (String × M)) :=
  getControllersAux importModule [] entries

/-- The parsed argparse namespace `self._args`: `list` and `syslog` are
store-true flags, `verbose` a count (absence modelled as `0`, which takes
the same branches as Python's `None`), `controller` the subparser
destination (`none` when no subcommand was selected), `application` the
positional argument (`""` is falsy, like a missing value). -/
structure ParsedArgs where
  list : Bool
  syslog : Bool
  verbose : Nat
  controller : Option String
  application : String
deriving Repr, DecidableEq

/-- Outcome of calling a controller's `main(application, args)`:
`ok` is a normal return; `typeError b msg` is a raised `TypeError`, with
`b = true` when it arises from call binding (wrong arity) and `b = false`
when raised inside the body — Python's `except TypeError` cannot tell the
two apart; `otherError kind msg` is a raised exception of any class other
than `TypeError`. -/
inductive MainResult where
  | ok : MainResult
  | typeError : Bool → String → MainResult
  | otherError : String → String → MainResult
deriving Repr, DecidableEq

/-- A loaded controller module: its required `main` capability. -/
structure Controller where
  main : String → ParsedArgs → MainResult

/-- The state a `CLI` instance carries into `run`: the controllers dict built
by `_get_controllers`, and the plugin index behind
`pkg_resources.iter_entry_points`, keyed by group name, used by
`_get_applications`. -/
structure CLIModel where
  controllers : List (String × Controller)
  appIndex : String → List EntryPoint

/-- Python `'%s' % x` on an optional string: `None` renders as `"None"`. -/
def pyStr : Option String → String
  | some s => s
  | none => "None"

/-- `'sprockets.%s.app' % controller` (`cli.py` line 213). -/
def groupName (controller : Option String) : String :=
  "sprockets." ++ pyStr controller ++ ".app"

/-- Lines 102-103 of `run`: the module name the application string resolves
to for the selected controller. -/
def resolvedApp (cli : CLIModel) (args : ParsedArgs) : String :=
  getApplicationModule (cli.appIndex (groupName args.controller))
    args.application

/-- `self._controllers[self._args.controller]`: dict lookup; a `None` key or
an absent name is a `KeyError`, modelled as `none`. -/
def lookupController (cs : List (String × Controller)) :
    Option String → Option Controller
  | some k => dictGet? cs k
  | none => none

/-- Observable side effects of one `CLI.run` call, in order. -/
inductive Event where
  | printedApps : String → List EntryPoint → Event
  | wroteStderr : String → Event
  | printedHelp : Event
  | configuredLogging : String → Nat → Bool → Event
  | calledMain : String → String → Event
deriving Repr, DecidableEq

/-- How one `CLI.run` call ends: `exit code` models `sys.exit(code)`,
`raised kind msg` an uncaught exception of class `kind` propagating out of
`run`, `returned` a normal return after the controller's `main` returned. -/
inductive Outcome where
  | exit : Int → Outcome
  | raised : String → String → Outcome
  | returned : Outcome
deriving Repr, DecidableEq

/-- Message of the `AttributeError` from `controller.upper()` when the
controller is `None` (`cli.py` line 254). -/
def noneUpperMsg : String := "NoneType object has no attribute upper"

/-- The usage diagnostic of `cli.py` line 97. -/
def usageErrorMsg : String := "\nerror: application not specified\n\n"

/-- The diagnostic written on a caught `TypeError` (`cli.py` lines 115-118),
naming the controller, the resolved application module and the exception
message. -/
def controllerDiag (controller : Option String) (appModule msg : String) :
    String :=
  "error: could not start the " ++ pyStr controller ++ " controller for " ++
    appModule ++ ": " ++ msg ++ "\n\n"

/-- `CLI._print_installed_apps` (`cli.py` lines 249-259): `controller.upper()`
is evaluated before anything is printed, so a `None` controller raises an
`AttributeError` with nothing on stdout; otherwise the table of the
controller's application entry points is printed. -/
def printInstalledApps (cli : CLIModel) :
    Option String → Except (String × String) (List Event)
  | none => Except.error ("AttributeError", noneUpperMsg)
  | some c => Except.ok [Event.printedApps c (cli.appIndex (groupName (some c)))]

/-- `CLI.run` (`cli.py` lines 85-119), returning the event trace and the
outcome.  Branches in source order: the list flag short-circuits into
`_print_installed_apps` and `sys.exit(0)`; a falsy application writes the
usage error, prints help and exits `-1`; otherwise the application is
resolved, logging configured, and the selected controller's `main` called
under `except TypeError`. -/
def CLI.run (cli : CLIModel) (args : ParsedArgs) : List Event × Outcome :=
  if args.list then
    match printInstalledApps cli args.controller with
    | Except.ok evs => (evs, Outcome.exit 0)
    | Except.error (k, m) => ([], Outcome.raised k m)
  else if args.application = "" then
    ([Event.wroteStderr usageErrorMsg, Event.printedHelp], Outcome.exit (-1))
  else
    let appModule := resolvedApp cli args
    let logEv := Event.configuredLogging appModule args.verbose args.syslog
    match lookupController cli.controllers args.controller with
    | none => ([logEv], Outcome.raised "KeyError" (pyStr args.controller))
    | some ctrl =>
      match ctrl.main appModule args with
      | MainResult.ok =>
          ([logEv, Event.calledMain (pyStr args.controller) appModule],
           Outcome.returned)
      | MainResult.typeError _ msg =>
          ([logEv, Event.calledMain (pyStr args.controller) appModule,
            Event.wroteStderr (controllerDiag args.controller appModule msg)],
           Outcome.exit (-1))
      | MainResult.otherError k m =>
          ([logEv, Event.calledMain (pyStr args.controller) appModule],
           Outcome.raised k m)

/-- A controller whose `main` returns normally. -/
def okController : Controller := ⟨fun _ _ => MainResult.ok⟩

/-- A controller whose `main` raises a wrong-arity `TypeError` at call
binding. -/
def tyErrController : Controller :=
  ⟨fun _ _ => MainResult.typeError true "main takes exactly 2 arguments"⟩

/-- A controller whose `main` raises a `TypeError` from inside its body. -/
def bodyTyErrController : Controller :=
  ⟨fun _ _ => MainResult.typeError false "unsupported operand type"⟩

/-- A sample CLI state: one controller named `web` with one registered
application alias `blog -> myapp.blog`. -/
def exCLI : CLIModel :=
  ⟨[("web", okController)],
   fun g => if g = "sprockets.web.app" then [⟨"blog", "myapp.blog"⟩] else []⟩

/-- Sample CLI state whose `web` controller rejects its call arity. -/
def tyErrCLI : CLIModel := ⟨[("web", tyErrController)], fun _ => []⟩

/-- Sample CLI state whose `web` controller raises `TypeError` in-body. -/
def bodyTyErrCLI : CLIModel := ⟨[("web", bodyTyErrController)], fun _ => []⟩

theorem getApplicationModule_no_match (apps : List EntryPoint) (s : String)
    (h : ∀ e ∈ apps, e.name ≠ s) : getApplicationModule apps s = s := by
  induction apps with
  | nil => rfl
  | cons p rest ih =>
    simp only [getApplicationModule, h p (List.mem_cons_self p rest), if_false,
      if_neg]
    exact ih fun e he => h e (List.mem_cons_of_mem p he)

theorem getApplicationModule_first (pre : List EntryPoint) (e : EntryPoint)
    (post : List EntryPoint) (s : String) (he : e.name = s)
    (hpre : ∀ x ∈ pre, x.name ≠ s) :
    getApplicationModule (pre ++ e :: post) s = e.module_name := by
  induction pre with
  | nil => simp [getApplicationModule, he]
  | cons x rest ih =>
    simp only [List.cons_append, getApplicationModule,
      hpre x (List.mem_cons_self x rest), if_neg]
    exact ih fun y hy => hpre y (List.mem_cons_of_mem x hy)

/-- Claim C3: for every controller application list and string, resolution
returns the module identifier of the first entry named like the string, and
returns the string itself when no entry matches (identity fallback). -/
theorem c3_alias_resolution (apps : List EntryPoint) (s : String) :
    (∀ pre e post, apps = pre ++ e :: post → e.name = s →
      (∀ x ∈ pre, x.name ≠ s) → getApplicationModule apps s = e.module_name) ∧
    ((∀ e ∈ apps, e.name ≠ s) → getApplicationModule apps s = s) :=
  ⟨fun pre e post hsplit he hpre =>
      hsplit ▸ getApplicationModule_first pre e post s he hpre,
   fun h => getApplicationModule_no_match apps s h⟩

/-- Witness for C3 at a concrete registry: the alias `foo` resolves to
`pkg.foo`, the unregistered `bar` resolves to itself. -/
theorem c3_witness :
    getApplicationModule [⟨"foo", "pkg.foo"⟩] "foo" = "pkg.foo" ∧
    getApplicationModule [⟨"foo", "pkg.foo"⟩] "bar" = "bar" :=
  ⟨(c3_alias_resolution [⟨"foo", "pkg.foo"⟩] "foo").1 [] ⟨"foo", "pkg.foo"⟩ []
      rfl rfl (by simp),
   (c3_alias_resolution [⟨"foo", "pkg.foo"⟩] "bar").2 (by decide)⟩

theorem dictGet_after_clone (a : String) (M : LoggerConfig) :
    dictGet? (dictSet [("sprockets", M)] a M) "sprockets" = some M := by
  by_cases h : ("sprockets" : String) = a
  · rw [← h]; exact dictGet_dictSet_self _ _ _
  · rw [dictGet_dictSet_ne _ _ _ _ h]; simp [dictGet?]

/-- Claim C4: for every verbosity value, the installed configuration's
`sprockets` logger severity is `WARNING` for verbosity 0, `INFO` for 1,
`DEBUG` for 2, and the template default `WARNING` for any other value. -/
theorem c4_verbosity_mapping (a : String) (v : Nat) (s : Bool) :
    dictGet? LOGGING.loggers "sprockets" =
      some { handlers := ["console"], level := WARNING, propagate := true } ∧
    ∃ r L, configureLogging LOGGING a v s = some r ∧
      dictGet? r.installed.loggers "sprockets" = some L ∧
      L.level = (if v = 1 then INFO else if v = 2 then DEBUG else WARNING) :=
  ⟨rfl, _, sprocketsAfterMods v s, configureLogging_LOGGING a v s,
   dictGet_after_clone a _, rfl⟩

/-- Claim C9: for every application identifier, verbosity and syslog flag,
the installed configuration holds a logger entry under the application key
equal to the base `sprockets` entry after the verbosity and syslog
modifications: same handler list, severity and propagation flag. -/
theorem c9_application_logger_clone (a : String) (v : Nat) (s : Bool) :
    ∃ r L, configureLogging LOGGING a v s = some r ∧
      dictGet? r.installed.loggers a = some L ∧
      dictGet? r.installed.loggers "sprockets" = some L ∧
      L.handlers = (if s then ["console", "syslog"] else ["console"]) ∧
      L.level = (if v = 1 then INFO else if v = 2 then DEBUG else WARNING) ∧
      L.propagate = true :=
  ⟨_, sprocketsAfterMods v s, configureLogging_LOGGING a v s,
   dictGet_dictSet_self _ _ _, dictGet_after_clone a _, rfl, rfl, rfl⟩

/-- Claim C1 fails on the code: `config = dict(LOGGING)` is a shallow copy,
so the call `configure_logging("myapp", 1, True)` leaves the module-level
template with severity `INFO`, the syslog handler appended and a new
`myapp` logger entry — the template is not left unchanged. -/
theorem c1_template_mutated :
    ∃ r, configureLogging LOGGING "myapp" 1 true = some r ∧
      dictGet? LOGGING.loggers "sprockets" =
        some { handlers := ["console"], level := WARNING, propagate := true } ∧
      dictGet? r.template.loggers "sprockets" =
        some { handlers := ["console", "syslog"], level := INFO,
               propagate := true } ∧
      dictGet? r.template.loggers "myapp" =
        some { handlers := ["console", "syslog"], level := INFO,
               propagate := true } ∧
      r.template ≠ LOGGING :=
  ⟨_, configureLogging_LOGGING "myapp" 1 true, rfl, by decide, by decide,
   by decide⟩

/-- Entry points for the controller group in which the middle registration
points at a module that cannot be imported. -/
def badEntries : List EntryPoint :=
  [⟨"good", "good_mod"⟩, ⟨"bad", "bad_mod"⟩, ⟨"tail", "tail_mod"⟩]

/-- An importer failing exactly on `bad_mod`. -/
def badImport (m : String) : Except String String :=
  if m = "bad_mod" then Except.error "ImportError: No module named bad_mod"
  else Except.ok m

/-- Claim C2 counterexample: with one unimportable registration the
enumeration does not return a mapping that merely omits the bad entry — it
aborts with the import error, dropping the good entries too. -/
theorem c2_counterexample :
    getControllers badEntries badImport =
      Except.error "ImportError: No module named bad_mod" ∧
    getControllers badEntries badImport ≠
      Except.ok [("good", "good_mod"), ("tail", "tail_mod")] :=
  ⟨rfl, fun h => by
    simp [getControllers, getControllersAux, badEntries, badImport, dictSet]
      at h⟩

theorem getControllersAux_error {M : Type} (f : String → Except String M)
    (entries : List EntryPoint) (e : EntryPoint) (m : String)
    (he : e ∈ entries) (hf : f e.module_name = Except.error m) :
    ∀ acc, ∃ msg, getControllersAux f acc entries = Except.error msg := by
  induction entries with
  | nil => cases he
  | cons p rest ih =>
    intro acc
    rcases List.mem_cons.mp he with hep | hep
    · subst hep
      exact ⟨m, by simp [getControllersAux, hf]⟩
    · cases hfp : f p.module_name with
      | error x => exact ⟨x, by simp [getControllersAux, hfp]⟩
      | ok mm =>
        have := ih hep (dictSet acc p.name mm)
        simpa [getControllersAux, hfp] using this

/-- Claim C2, amended: if any registered controller entry's module fails to
import, the import error propagates out of the enumeration and aborts it —
no mapping is returned at all, not even one omitting the bad entry. -/
theorem c2_import_error_aborts {M : Type} (entries : List EntryPoint)
    (f : String → Except String M) (e : EntryPoint) (m : String)
    (he : e ∈ entries) (hf : f e.module_name = Except.error m) :
    ∃ msg, getControllers entries f = Except.error msg :=
  getControllersAux_error f entries e m he hf []

/-- Witness for the amended C2 at the concrete bad registry. -/
theorem c2_import_error_aborts_witness :
    ∃ msg, getControllers badEntries badImport = Except.error msg :=
  c2_import_error_aborts badEntries badImport ⟨"bad", "bad_mod"⟩
    "ImportError: No module named bad_mod" (by decide) rfl

/-- Claim C5: when the list flag is set, `run` emits nothing but the
installed-apps table — no controller `main` call, no logging configuration,
no validation of the application string — and, for a selected controller,
terminates with exit code 0 after printing that controller's table,
whatever the other flags are. -/
theorem c5_list_short_circuits (cli : CLIModel) (args : ParsedArgs)
    (h : args.list = true) :
    (∀ e ∈ (CLI.run cli args).1, ∃ c apps, e = Event.printedApps c apps) ∧
    (∀ c, args.controller = some c →
      CLI.run cli args =
        ([Event.printedApps c (cli.appIndex (groupName (some c)))],
         Outcome.exit 0)) := by
  cases hc : args.controller with
  | none =>
    refine ⟨fun e hmem => ?_, fun c hcs => by cases hcs⟩
    simp [CLI.run, h, hc, printInstalledApps] at hmem
  | some c0 =>
    constructor
    · intro e hmem
      simp [CLI.run, h, hc, printInstalledApps] at hmem
      exact ⟨c0, _, hmem⟩
    · intro c hcs
      injection hcs with hcc
      subst hcc
      simp [CLI.run, h, hc, printInstalledApps]

/-- Witness for C5: listing with the `web` controller selected, syslog on
and full verbosity still only prints the table and exits 0. -/
theorem c5_witness :
    CLI.run exCLI ⟨true, true, 2, some "web", "ignored"⟩ =
      ([Event.printedApps "web" [⟨"blog", "myapp.blog"⟩]], Outcome.exit 0) := by
  rw [(c5_list_short_circuits exCLI ⟨true, true, 2, some "web", "ignored"⟩
    rfl).2 "web" rfl]
  rfl

/-- Claim C6: a wrong-arity `TypeError` from the selected controller's
`main` is caught: the diagnostic naming the controller, the resolved
application and the message is written to stderr and the process exits
with code -1; any exception of another class propagates unmodified. -/
theorem c6_contract_mismatch (cli : CLIModel) (args : ParsedArgs)
    (ctrl : Controller) (c : String)
    (h1 : args.list = false) (h2 : args.application ≠ "")
    (h3 : args.controller = some c)
    (h4 : dictGet? cli.controllers c = some ctrl) :
    (∀ msg,
      ctrl.main (resolvedApp cli args) args = MainResult.typeError true msg →
      CLI.run cli args =
        ([Event.configuredLogging (resolvedApp cli args) args.verbose
            args.syslog,
          Event.calledMain c (resolvedApp cli args),
          Event.wroteStderr
            (controllerDiag (some c) (resolvedApp cli args) msg)],
         Outcome.exit (-1))) ∧
    (∀ k m,
      ctrl.main (resolvedApp cli args) args = MainResult.otherError k m →
      CLI.run cli args =
        ([Event.configuredLogging (resolvedApp cli args) args.verbose
            args.syslog,
          Event.calledMain c (resolvedApp cli args)],
         Outcome.raised k m)) := by
  constructor
  · intro msg hm
    simp [CLI.run, h1, h2, h3, lookupController, h4, hm, pyStr]
  · intro k m hm
    simp [CLI.run, h1, h2, h3, lookupController, h4, hm, pyStr]

/-- Witness for C6: the `web` controller's wrong-arity rejection ends in
the stderr diagnostic and exit code -1. -/
theorem c6_witness :
    CLI.run tyErrCLI ⟨false, false, 0, some "web", "myapp.custom"⟩ =
      ([Event.configuredLogging "myapp.custom" 0 false,
        Event.calledMain "web" "myapp.custom",
        Event.wroteStderr (controllerDiag (some "web") "myapp.custom"
          "main takes exactly 2 arguments")],
       Outcome.exit (-1)) := by
  rw [(c6_contract_mismatch tyErrCLI ⟨false, false, 0, some "web",
      "myapp.custom"⟩ tyErrController "web" rfl (by decide) rfl rfl).1
    "main takes exactly 2 arguments" rfl]
  rfl

/-- Claim C7: with list-mode unset and an empty application string, `run`
writes the usage error, prints help and exits -1, with no controller call
and no logging configuration. -/
theorem c7_missing_application (cli : CLIModel) (args : ParsedArgs)
    (h1 : args.list = false) (h2 : args.application = "") :
    CLI.run cli args =
      ([Event.wroteStderr usageErrorMsg, Event.printedHelp],
       Outcome.exit (-1)) := by
  simp [CLI.run, h1, h2]

/-- Witness for C7 at a concrete invocation with no application token. -/
theorem c7_witness :
    CLI.run exCLI ⟨false, false, 0, some "web", ""⟩ =
      ([Event.wroteStderr usageErrorMsg, Event.printedHelp],
       Outcome.exit (-1)) :=
  c7_missing_application exCLI ⟨false, false, 0, some "web", ""⟩ rfl rfl

/-- Claim C8 counterexample: list-mode with no selected controller does not
produce a usage error — `run` raises an uncaught `AttributeError` (from
`controller.upper()` on `None`) with nothing printed and no exit code. -/
theorem c8_counterexample :
    CLI.run exCLI ⟨true, false, 0, none, ""⟩ =
      ([], Outcome.raised "AttributeError" noneUpperMsg) ∧
    CLI.run exCLI ⟨true, false, 0, none, ""⟩ ≠
      ([Event.wroteStderr usageErrorMsg, Event.printedHelp],
       Outcome.exit (-1)) :=
  ⟨rfl, fun h => by simp [CLI.run, printInstalledApps] at h⟩

/-- Claim C8, amended: when list-mode is set and no controller was
selected, `run` does not surface a usage error; it crashes with an
uncaught `AttributeError` before printing anything. -/
theorem c8_list_without_controller (cli : CLIModel) (args : ParsedArgs)
    (h1 : args.list = true) (h2 : args.controller = none) :
    CLI.run cli args = ([], Outcome.raised "AttributeError" noneUpperMsg) := by
  simp [CLI.run, h1, h2, printInstalledApps]

/-- Witness for the amended C8 at a concrete list invocation without a
controller token. -/
theorem c8_list_without_controller_witness :
    CLI.run exCLI ⟨true, false, 0, none, ""⟩ =
      ([], Outcome.raised "AttributeError" noneUpperMsg) :=
  c8_list_without_controller exCLI ⟨true, false, 0, none, ""⟩ rfl rfl

/-- Claim C10: a `TypeError` raised anywhere inside the controller's `main`
body is caught by the same `except TypeError` clause as a wrong-arity call:
the contract-mismatch diagnostic is written and the process exits -1, so at
this layer an in-body `TypeError` is indistinguishable from a binding
failure. -/
theorem c10_inbody_typeerror_caught (cli : CLIModel) (args : ParsedArgs)
    (ctrl : Controller) (c : String) (msg : String)
    (h1 : args.list = false) (h2 : args.application ≠ "")
    (h3 : args.controller = some c)
    (h4 : dictGet? cli.controllers c = some ctrl)
    (h5 : ctrl.main (resolvedApp cli args) args =
      MainResult.typeError false msg) :
    CLI.run cli args =
      ([Event.configuredLogging (resolvedApp cli args) args.verbose
          args.syslog,
        Event.calledMain c (resolvedApp cli args),
        Event.wroteStderr
          (controllerDiag (some c) (resolvedApp cli args) msg)],
       Outcome.exit (-1)) := by
  simp [CLI.run, h1, h2, h3, lookupController, h4, h5, pyStr]

/-- Witness for C10: an in-body `TypeError` from the `web` controller ends
in the same diagnostic and exit code -1. -/
theorem c10_witness :
    CLI.run bodyTyErrCLI ⟨false, false, 0, some "web", "myapp.custom"⟩ =
      ([Event.configuredLogging "myapp.custom" 0 false,
        Event.calledMain "web" "myapp.custom",
        Event.wroteStderr (controllerDiag (some "web") "myapp.custom"
          "unsupported operand type")],
       Outcome.exit (-1)) := by
  rw [c10_inbody_typeerror_caught bodyTyErrCLI ⟨false, false, 0, some "web",
    "myapp.custom"⟩ bodyTyErrController "web" "unsupported operand type" rfl
    (by decide) rfl rfl rfl]
  rfl

end Sprockets
